import Mathlib

/-
Shallow embedding of src/nft_project_quiz.py (NFT Patent Marketplace Quiz).

The program holds a static list of question records, picks one at random,
prints a banner and the question, reads lines from standard input until a
line whose stripped form is "1" or "2" arrives, then reports correctness
and the explanation.  Console output is modelled as a trace of output
events (print calls and input-prompt writes); the input stream is a list
of input events (a text line, or an interrupt signal arriving while the
program waits at the prompt); exhaustion of the event list models
end-of-input, where Python input() raises EOFError.  The except clause in
the source catches only ValueError and KeyboardInterrupt, so EOFError
propagates and the interpreter terminates with a nonzero status (modelled
as exit code 1); sys.exit(0) and normal completion give exit code 0.
-/

namespace NFTQuiz

structure Question where
  question : String
  options : List String
  correct : Nat
  explanation : String
deriving DecidableEq

/- The static question bank built in NFTProjectQuiz.__init__ (source lines 12-103). -/
def questions : List Question := [
  { question := "When a user searches for patents, which file handles the initial user input?",
    options := ["src/services/patentApi.ts", "src/pages/PatentSearchPage.tsx"],
    correct := 1,
    explanation := "PatentSearchPage.tsx:33 (handleSearch) handles the user clicking the search button" },
  { question := "Which backend route processes patent search requests?",
    options := ["backend/routes/patents.js", "backend/routes/ipfs.js"],
    correct := 0,
    explanation := "backend/routes/patents.js:62 (GET /api/patents/search) receives and processes search requests" },
  { question := "When minting an NFT, which service orchestrates the entire minting process?",
    options := ["src/services/patentPdfService.ts", "src/services/mintingService.ts"],
    correct := 1,
    explanation := "mintingService.ts:48 (mintPatentNFT) orchestrates the complete minting workflow" },
  { question := "Which smart contract function actually mints the NFT on the blockchain?",
    options := ["contracts/PatentNFT.sol:52 (mintPatentNFT)", "contracts/NFTMarketplace.sol (getAllActiveListings)"],
    correct := 0,
    explanation := "PatentNFT.sol:52 (mintPatentNFT) handles the actual NFT minting on blockchain" },
  { question := "Where is the PDF processing for patents handled?",
    options := ["backend/routes/pdf.js", "src/utils/web3Utils.ts"],
    correct := 0,
    explanation := "backend/routes/pdf.js:8 (POST /api/pdf/process-patent) generates placeholder PDFs" },
  { question := "Which file handles IPFS metadata uploads via Pinata?",
    options := ["src/services/patentApi.ts", "backend/routes/ipfs.js"],
    correct := 1,
    explanation := "backend/routes/ipfs.js:67 (POST /api/pinata/upload-json) uploads metadata to IPFS" },
  { question := "When viewing marketplace listings, which service fetches the listings?",
    options := ["src/services/marketplaceService.ts", "src/services/mintingService.ts"],
    correct := 0,
    explanation := "marketplaceService.ts:75 (getMarketplaceListings) fetches marketplace listings" },
  { question := "Which file contains the wallet connection and network verification logic?",
    options := ["src/utils/contracts.ts", "src/utils/web3Utils.ts"],
    correct := 1,
    explanation := "web3Utils.ts handles MetaMask connection verification and network switching" },
  { question := "Where are the smart contract instances created?",
    options := ["src/utils/contracts.ts", "src/services/patentApi.ts"],
    correct := 0,
    explanation := "contracts.ts (getPatentNFTContract) creates contract instances with signers" },
  { question := "Which smart contract checks if a patent already exists before minting?",
    options := ["contracts/NFTMarketplace.sol", "contracts/PatentNFT.sol"],
    correct := 1,
    explanation := "PatentNFT.sol:97 (patentExists) checks if each patent is already minted" },
  { question := "What is the minimum minting fee required by the smart contract?",
    options := ["0.025 ETH", "0.05 ETH"],
    correct := 1,
    explanation := "PatentNFT.sol:53 verifies payment greater or equal 0.05 ETH for minting" },
  { question := "Which page component handles the marketplace UI?",
    options := ["src/pages/MarketplacePage.tsx", "src/pages/PatentSearchPage.tsx"],
    correct := 0,
    explanation := "MarketplacePage.tsx:47 loads and displays marketplace listings" },
  { question := "Where is the routing configuration that maps /marketplace to the marketplace page?",
    options := ["src/App.tsx", "src/main.tsx"],
    correct := 0,
    explanation := "App.tsx:27 contains the route /marketplace to MarketplacePage" },
  { question := "Which external API is used to fetch patent data?",
    options := ["Google Patents via SerpAPI", "USPTO Direct API"],
    correct := 0,
    explanation := "backend/routes/patents.js:80 calls SerpAPI to access Google Patents data" },
  { question := "What percentage marketplace fee is collected on sales?",
    options := ["2.5%", "5%"],
    correct := 0,
    explanation := "The architecture shows 2.5% platform fee in the NFTMarketplace contract" }
]

/- An event on the input stream: a line typed by the user, or a
KeyboardInterrupt arriving while the program blocks at the prompt.
End-of-input (EOFError from input()) is the exhaustion of the event list. -/
inductive InEvent where
  | line (s : String)
  | interrupt
deriving DecidableEq

/- One chunk written to standard output: a print call (which appends a
newline) or the prompt string written by input(). -/
inductive Out where
  | prompt (s : String)
  | line (s : String)
deriving DecidableEq

/- How the input loop (source lines 122-132) terminates. -/
inductive LoopResult where
  | ok (choice : Int)
  | interruptCancel
  | valueErrorCancel
  | eofCrash
deriving DecidableEq

def answerPrompt : String := "Your answer (1 or 2): "
def guidanceMsg : String := "Please enter 1 or 2"
def cancelMsg : String := "\nQuiz cancelled."
def correctMsg : String := "✅ CORRECT!"
def incorrectMsg : String := "❌ INCORRECT!"
def completionMsg : String := "\nQuiz complete! Run again for a different question."

/- Python str.strip() on ASCII whitespace. -/
def isPySpace (c : Char) : Bool := c = ' ' ∨ c = '\t' ∨ c = '\n' ∨ c = '\x0b' ∨ c = '\x0c' ∨ c = '\r'

def pyStrip (t : String) : String :=
  String.mk (((t.data.dropWhile isPySpace).reverse.dropWhile isPySpace).reverse)

def digitsVal (l : List Char) : Option Nat :=
  if l ≠ [] ∧ l.all Char.isDigit then
    some (l.foldl (fun a c => a * 10 + (c.toNat - 48)) 0)
  else none

/- Python int() applied to a string: none models a raised ValueError. -/
def pyInt (t : String) : Option Int :=
  match (pyStrip t).data with
  | '-' :: rest => (digitsVal rest).map (fun n => -(n : Int))
  | '+' :: rest => (digitsVal rest).map (fun n => (n : Int))
  | l => (digitsVal l).map (fun n => (n : Int))

/- The while-True input loop of run_quiz (source lines 122-132): prompt,
strip the line, accept "1" or "2" (converted with int and decremented),
otherwise print the guidance message and loop.  A KeyboardInterrupt or a
ValueError lands in the except clause, printing the cancellation message
(sys.exit(0) follows).  End-of-input raises EOFError, which the except
clause does not name, so the loop ends in an uncaught-exception state. -/
def collectAnswer : List InEvent → List Out × LoopResult
  | [] => ([Out.prompt answerPrompt], LoopResult.eofCrash)
  | InEvent.interrupt :: _ =>
      ([Out.prompt answerPrompt, Out.line cancelMsg], LoopResult.interruptCancel)
  | InEvent.line t :: rest =>
      let answer := pyStrip t
      if answer = "1" ∨ answer = "2" then
        match pyInt answer with
        | some n => ([Out.prompt answerPrompt], LoopResult.ok (n - 1))
        | none => ([Out.prompt answerPrompt, Out.line cancelMsg], LoopResult.valueErrorCancel)
      else
        let r := collectAnswer rest
        (Out.prompt answerPrompt :: Out.line guidanceMsg :: r.1, r.2)

/- Number of guidance re-prompts in an output trace. -/
def reprompts : List Out → Nat
  | [] => 0
  | o :: rest => (if o = Out.line guidanceMsg then 1 else 0) + reprompts rest

/- The banner printed at the top of run_quiz (source lines 106-109). -/
def banner : List Out :=
  [Out.line "🧠 NFT Patent Marketplace Quiz",
   Out.line (String.mk (List.replicate 50 '=')),
   Out.line "Test your knowledge of where features and functionality are located!",
   Out.line "Choose option 1 or 2 for each question.\n"]

/- for i, option in enumerate(options, 1): print(f"{i}. {option}") -/
def optionLines : Nat → List String → List Out
  | _, [] => []
  | i, o :: rest => Out.line (toString i ++ ". " ++ o) :: optionLines (i + 1) rest

/- Printing the selected question and its numbered options (lines 114-119). -/
def presentQuestion (q : Question) : List Out :=
  Out.line ("Question: " ++ q.question ++ "\n") :: optionLines 1 q.options ++ [Out.line ""]

/- random.choice over the bank, with the random draw made explicit as the
chosen index (source line 112). -/
def selectQuestion (qs : List Question) (pick : Nat) : Option Question :=
  qs.get? pick

/- The answer check and explanation (source lines 136-144).  The Bool is
true when the block completes; false models an IndexError raised while
indexing options with the correct index (only reachable on the INCORRECT
branch, after its marker has been printed). -/
def evaluate (q : Question) (choice : Int) : List Out × Bool :=
  if choice = (q.correct : Int) then
    ([Out.line correctMsg, Out.line ("\n💡 Explanation: " ++ q.explanation)], true)
  else
    match q.options.get? q.correct with
    | some ans =>
        ([Out.line incorrectMsg,
          Out.line ("The correct answer is: " ++ ans),
          Out.line ("\n💡 Explanation: " ++ q.explanation)], true)
    | none => ([Out.line incorrectMsg], false)

structure RunResult where
  trace : List Out
  exit : Nat
  bank : List Question
deriving DecidableEq

/- run_quiz (source lines 105-145), followed by the interpreter exit:
banner, random selection (the draw passed as pick; an out-of-range pick
models the IndexError of random.choice on an empty bank), presentation,
input loop, evaluation.  Exit status is 0 on normal completion and on the
sys.exit(0) cancellation paths, 1 when an exception escapes.  The bank
field carries the object state self.questions, which no statement of
run_quiz assigns to or mutates. -/
def runQuiz (qs : List Question) (pick : Nat) (events : List InEvent) : RunResult :=
  match qs.get? pick with
  | none => { trace := banner, exit := 1, bank := qs }
  | some q =>
    let header := banner ++ presentQuestion q
    let r := collectAnswer events
    match r.2 with
    | LoopResult.ok choice =>
        let ev := evaluate q choice
        if ev.2 then
          { trace := header ++ r.1 ++ [Out.line ""] ++ ev.1 ++ [Out.line completionMsg],
            exit := 0, bank := qs }
        else
          { trace := header ++ r.1 ++ [Out.line ""] ++ ev.1, exit := 1, bank := qs }
    | LoopResult.interruptCancel => { trace := header ++ r.1, exit := 0, bank := qs }
    | LoopResult.valueErrorCancel => { trace := header ++ r.1, exit := 0, bank := qs }
    | LoopResult.eofCrash => { trace := header ++ r.1, exit := 1, bank := qs }

/- Rendering an output trace to the text that appears on the console. -/
def render : List Out → String
  | [] => ""
  | Out.prompt t :: rest => t ++ render rest
  | Out.line t :: rest => t ++ "\n" ++ render rest

/- The prompt/guidance pairs emitted while the loop rejects invalid lines. -/
def skipBlock : List String → List Out
  | [] => []
  | _ :: rest => Out.prompt answerPrompt :: Out.line guidanceMsg :: skipBlock rest

/- A placeholder record used to pick concrete bank entries in examples. -/
def dfltQ : Question := { question := "", options := [], correct := 0, explanation := "" }

example : pyStrip "  2 \t" = "2" := by decide
example : pyInt "1" = some 1 := by decide
example : pyInt "2" = some 2 := by decide
example : pyInt "x" = none := by decide
example : optionLines 1 ["a", "b"] = [Out.line "1. a", Out.line "2. b"] := by decide
example : (collectAnswer [InEvent.line "", InEvent.line "3", InEvent.line "x", InEvent.line "2"]).2
    = LoopResult.ok 1 := by decide
example : reprompts (collectAnswer [InEvent.line "", InEvent.line "3", InEvent.line "x",
    InEvent.line "2"]).1 = 3 := by decide
example : (collectAnswer [InEvent.line "1"]).2 = LoopResult.ok 0 := by decide
example : (runQuiz questions 0 []).exit = 1 := by decide
example : questions.length = 15 := by decide

/- Every bank entry has two options and a correct index below 2. -/
theorem bank_invariant : ∀ q ∈ questions, q.options.length = 2 ∧ q.correct < 2 := by decide

/- Unfolding the loop on a line whose stripped form is accepted. -/
theorem collectAnswer_valid_cons (t : String) (rest : List InEvent)
    (h : pyStrip t = "1" ∨ pyStrip t = "2") :
    collectAnswer (InEvent.line t :: rest) =
      ([Out.prompt answerPrompt], LoopResult.ok (if pyStrip t = "1" then 0 else 1)) := by
  rcases h with h | h <;>
    simp [collectAnswer, h, (by decide : pyInt "1" = some 1), (by decide : pyInt "2" = some 2)]

/- Unfolding the loop on a rejected line. -/
theorem collectAnswer_invalid_cons (t : String) (rest : List InEvent)
    (h : ¬(pyStrip t = "1" ∨ pyStrip t = "2")) :
    collectAnswer (InEvent.line t :: rest) =
      (Out.prompt answerPrompt :: Out.line guidanceMsg :: (collectAnswer rest).1,
        (collectAnswer rest).2) := by
  simp [collectAnswer, h]

/- Rejected lines only add prompt/guidance pairs in front of whatever the
rest of the stream produces. -/
theorem collectAnswer_skip (lines : List String) (events : List InEvent)
    (h : ∀ s ∈ lines, ¬(pyStrip s = "1" ∨ pyStrip s = "2")) :
    collectAnswer (lines.map InEvent.line ++ events) =
      (skipBlock lines ++ (collectAnswer events).1, (collectAnswer events).2) := by
  induction lines with
  | nil => simp [skipBlock]
  | cons a as ih =>
      have ha := h a (by simp)
      have ih2 := ih (fun s hs => h s (by simp [hs]))
      simp only [List.map_cons, List.cons_append, skipBlock,
        collectAnswer_invalid_cons a _ ha]
      rw [ih2]

theorem skipBlock_mem (lines : List String) (o : Out) (h : o ∈ skipBlock lines) :
    o = Out.prompt answerPrompt ∨ o = Out.line guidanceMsg := by
  induction lines with
  | nil => simp [skipBlock] at h
  | cons a as ih =>
      simp only [skipBlock, List.mem_cons] at h
      rcases h with h | h | h
      · exact Or.inl h
      · exact Or.inr h
      · exact ih h

theorem reprompts_skipBlock (lines : List String) :
    reprompts (skipBlock lines) = lines.length := by
  induction lines with
  | nil => rfl
  | cons a as ih => simp [skipBlock, reprompts, ih, guidanceMsg, answerPrompt]; omega

theorem reprompts_append (a b : List Out) :
    reprompts (a ++ b) = reprompts a + reprompts b := by
  induction a with
  | nil => simp [reprompts]
  | cons o rest ih => simp [reprompts, ih]; omega

/- Every path of the loop starts by writing the input prompt. -/
theorem collectAnswer_head (events : List InEvent) :
    ∃ tail, (collectAnswer events).1 = Out.prompt answerPrompt :: tail := by
  cases events with
  | nil => exact ⟨[], rfl⟩
  | cons e rest =>
      cases e with
      | interrupt => exact ⟨[Out.line cancelMsg], rfl⟩
      | line t =>
          by_cases h : pyStrip t = "1" ∨ pyStrip t = "2"
          · rw [collectAnswer_valid_cons t rest h]
            exact ⟨[], rfl⟩
          · rw [collectAnswer_invalid_cons t rest h]
            exact ⟨Out.line guidanceMsg :: (collectAnswer rest).1, rfl⟩

theorem render_append (a b : List Out) : render (a ++ b) = render a ++ render b := by
  induction a with
  | nil => simp [render]
  | cons o rest ih => cases o <;> simp [render, ih, String.append_assoc]

/- None of the banner or question-presentation lines coincides with the
cancellation notice or either marker, for any bank entry. -/
theorem header_no_special : ∀ q ∈ questions,
    Out.line cancelMsg ∉ banner ++ presentQuestion q ∧
    Out.line correctMsg ∉ banner ++ presentQuestion q ∧
    Out.line incorrectMsg ∉ banner ++ presentQuestion q := by decide

/- A string strictly longer than another cannot equal it, whatever the
appended tail. -/
theorem append_ne_of_length_lt (a b c : String) (h : c.length < a.length) :
    a ++ b ≠ c := by
  intro he
  have hl := congrArg String.length he
  rw [String.length_append] at hl
  omega

/- Whatever the input stream does, the trace of a run over a successfully
selected question starts with the banner, the question presentation and
the first input prompt. -/
theorem runQuiz_trace_shape (qs : List Question) (pick : Nat) (q : Question)
    (events : List InEvent) (hq : qs.get? pick = some q) :
    ∃ t, (runQuiz qs pick events).trace =
      banner ++ (presentQuestion q ++ (Out.prompt answerPrompt :: t)) := by
  obtain ⟨tail, htail⟩ := collectAnswer_head events
  unfold runQuiz
  rw [hq]
  dsimp only
  rcases hres : (collectAnswer events).2 with choice | _ | _ | _
  · cases hev : (evaluate q choice).2
    · refine ⟨tail ++ ([Out.line ""] ++ (evaluate q choice).1), ?_⟩
      simp [hres, hev, htail]
    · refine ⟨tail ++ ([Out.line ""] ++ ((evaluate q choice).1 ++ [Out.line completionMsg])), ?_⟩
      simp [hres, hev, htail]
  · exact ⟨tail, by simp [hres, htail]⟩
  · exact ⟨tail, by simp [hres, htail]⟩
  · exact ⟨tail, by simp [hres, htail]⟩

/- For in-range correct indices the evaluation block never raises. -/
theorem evaluate_completes (q : Question) (hlt : q.correct < q.options.length)
    (choice : Int) : (evaluate q choice).2 = true := by
  unfold evaluate
  split
  · rfl
  · rw [List.get?_eq_get hlt]

/-- C1: the input loop re-prompts with the guidance message once for each
line whose stripped form is not "1" or "2" (empty string included), with no
retry limit, and returns index 0 or 1 for the first line whose stripped
form is "1" or "2" respectively; on the sequence "", "3", "x", "2" it
re-prompts three times and returns index 1, and on the single line "1" it
returns index 0 without re-prompting. -/
theorem C1_collect_first_valid (pre : List String) (v : String) (rest : List InEvent)
    (hpre : ∀ s ∈ pre, ¬(pyStrip s = "1" ∨ pyStrip s = "2"))
    (hv : pyStrip v = "1" ∨ pyStrip v = "2") :
    (collectAnswer (pre.map InEvent.line ++ InEvent.line v :: rest)).2 =
      LoopResult.ok (if pyStrip v = "1" then 0 else 1) ∧
    reprompts (collectAnswer (pre.map InEvent.line ++ InEvent.line v :: rest)).1 =
      pre.length ∧
    (collectAnswer [InEvent.line "", InEvent.line "3", InEvent.line "x",
      InEvent.line "2"]).2 = LoopResult.ok 1 ∧
    reprompts (collectAnswer [InEvent.line "", InEvent.line "3", InEvent.line "x",
      InEvent.line "2"]).1 = 3 ∧
    (collectAnswer [InEvent.line "1"]).2 = LoopResult.ok 0 ∧
    reprompts (collectAnswer [InEvent.line "1"]).1 = 0 := by
  have hskip := collectAnswer_skip pre (InEvent.line v :: rest) hpre
  have hval := collectAnswer_valid_cons v rest hv
  refine ⟨?_, ?_, by decide, by decide, by decide, by decide⟩
  · rw [hskip, hval]
  · rw [hskip, hval]
    simp only []
    rw [reprompts_append, reprompts_skipBlock]
    simp [reprompts, answerPrompt, guidanceMsg]

theorem C1_witness :
    (collectAnswer (["x"].map InEvent.line ++ InEvent.line "2" :: [])).2 =
      LoopResult.ok (if pyStrip "2" = "1" then 0 else 1) ∧
    reprompts (collectAnswer (["x"].map InEvent.line ++ InEvent.line "2" :: [])).1 =
      (["x"] : List String).length := by
  have h := C1_collect_first_valid ["x"] "2" [] (by decide) (by decide)
  exact ⟨h.1, h.2.1⟩

/-- C2 counterexample: with the real bank, question 0 selected and the
input stream ending immediately (end-of-input while awaiting the answer),
the program does not exit with status 0 and print the cancellation
message; the EOFError escapes the except clause, which names only
ValueError and KeyboardInterrupt. -/
theorem C2_counterexample :
    ¬((runQuiz questions 0 []).exit = 0 ∧
      Out.line cancelMsg ∈ (runQuiz questions 0 []).trace) := by decide

/-- C2 amended: if the input stream terminates while the program awaits
the answer (after any number of rejected lines), the EOFError raised by
input() is not caught, so the run ends with a nonzero exit status and
without the cancellation message. -/
theorem C2_eof_uncaught (pick : Nat) (q : Question) (lines : List String)
    (hq : questions.get? pick = some q)
    (hlines : ∀ s ∈ lines, ¬(pyStrip s = "1" ∨ pyStrip s = "2")) :
    (runQuiz questions pick (lines.map InEvent.line)).exit = 1 ∧
    Out.line cancelMsg ∉ (runQuiz questions pick (lines.map InEvent.line)).trace := by
  have hskip := collectAnswer_skip lines [] hlines
  rw [List.append_nil] at hskip
  have hmem := (header_no_special q (List.get?_mem hq)).1
  simp only [List.get?_eq_getElem?] at hq
  have htr : (runQuiz questions pick (lines.map InEvent.line)).trace =
      banner ++ (presentQuestion q ++ (skipBlock lines ++ [Out.prompt answerPrompt])) := by
    simp [runQuiz, hq, hskip, collectAnswer]
  constructor
  · simp [runQuiz, hq, hskip, collectAnswer]
  · rw [htr]
    intro hin
    rcases List.mem_append.1 hin with hin | hin
    · exact hmem (List.mem_append.2 (Or.inl hin))
    rcases List.mem_append.1 hin with hin | hin
    · exact hmem (List.mem_append.2 (Or.inr hin))
    rcases List.mem_append.1 hin with hin | hin
    · rcases skipBlock_mem lines _ hin with h | h
      · exact absurd h (by decide)
      · exact absurd h (by decide)
    · exact absurd (List.mem_singleton.1 hin) (by decide)

theorem C2_witness :
    (runQuiz questions 0 (([] : List String).map InEvent.line)).exit = 1 ∧
    Out.line cancelMsg ∉
      (runQuiz questions 0 (([] : List String).map InEvent.line)).trace :=
  C2_eof_uncaught 0 (questions.getD 0 dfltQ) [] (by decide) (by decide)

/-- C3: for every two-option question with in-range correct index and
every chosen index in 0..1, evaluation prints the CORRECT marker exactly
when the choice equals the correct index; otherwise it prints the
INCORRECT marker followed by the literal text of the correct option; in
both cases the explanation follows verbatim. -/
theorem C3_evaluate_spec (q : Question) (choice : Int)
    (hlen : q.options.length = 2) (hc : q.correct < 2)
    (_hch : choice = 0 ∨ choice = 1) :
    (choice = (q.correct : Int) →
      (evaluate q choice).1 =
        [Out.line correctMsg, Out.line ("\n💡 Explanation: " ++ q.explanation)]) ∧
    (choice ≠ (q.correct : Int) →
      ∃ ans, q.options.get? q.correct = some ans ∧
        (evaluate q choice).1 =
          [Out.line incorrectMsg, Out.line ("The correct answer is: " ++ ans),
           Out.line ("\n💡 Explanation: " ++ q.explanation)]) ∧
    (Out.line correctMsg ∈ (evaluate q choice).1 ↔ choice = (q.correct : Int)) := by
  have hlt : q.correct < q.options.length := by omega
  by_cases he : choice = (q.correct : Int)
  · refine ⟨fun _ => ?_, fun hne => absurd he hne, ?_⟩
    · simp [evaluate, he]
    · simp [evaluate, he]
  · obtain ⟨ans, hans⟩ : ∃ a, q.options.get? q.correct = some a :=
      ⟨q.options.get ⟨q.correct, hlt⟩, List.get?_eq_get hlt⟩
    have hans2 := hans
    simp only [List.get?_eq_getElem?] at hans2
    have hout : (evaluate q choice).1 =
        [Out.line incorrectMsg, Out.line ("The correct answer is: " ++ ans),
         Out.line ("\n💡 Explanation: " ++ q.explanation)] := by
      simp [evaluate, he, hans2]
    refine ⟨fun h => absurd h he, fun _ => ⟨ans, hans, hout⟩, ?_⟩
    rw [hout]
    constructor
    · intro h
      exfalso
      simp only [List.mem_cons, List.not_mem_nil, or_false, Out.line.injEq] at h
      rcases h with h | h | h
      · exact absurd h (by decide)
      · exact append_ne_of_length_lt "The correct answer is: " ans correctMsg
          (by decide) h.symm
      · exact append_ne_of_length_lt "\n💡 Explanation: " q.explanation correctMsg
          (by decide) h.symm
    · intro h
      exact absurd h he

theorem C3_witness :
    ∃ ans, (⟨"P", ["A", "B"], 1, "E"⟩ : Question).options.get? 1 = some ans ∧
      (evaluate ⟨"P", ["A", "B"], 1, "E"⟩ 0).1 =
        [Out.line incorrectMsg, Out.line ("The correct answer is: " ++ ans),
         Out.line ("\n💡 Explanation: " ++ "E")] :=
  (C3_evaluate_spec ⟨"P", ["A", "B"], 1, "E"⟩ 0 (by decide) (by decide)
    (by decide)).2.1 (by decide)

/-- C4: an interrupt while the program awaits the answer yields the
cancellation notice, no CORRECT or INCORRECT marker, and exit status 0;
the normal-completion path also exits with status 0. -/
theorem C4_interrupt_graceful (pick : Nat) (q : Question) (lines : List String)
    (rest : List InEvent) (v : String)
    (hq : questions.get? pick = some q)
    (hlines : ∀ s ∈ lines, ¬(pyStrip s = "1" ∨ pyStrip s = "2"))
    (hv : pyStrip v = "1" ∨ pyStrip v = "2") :
    (runQuiz questions pick (lines.map InEvent.line ++ InEvent.interrupt :: rest)).exit
      = 0 ∧
    Out.line cancelMsg ∈
      (runQuiz questions pick (lines.map InEvent.line ++ InEvent.interrupt :: rest)).trace ∧
    Out.line correctMsg ∉
      (runQuiz questions pick (lines.map InEvent.line ++ InEvent.interrupt :: rest)).trace ∧
    Out.line incorrectMsg ∉
      (runQuiz questions pick (lines.map InEvent.line ++ InEvent.interrupt :: rest)).trace ∧
    (runQuiz questions pick (lines.map InEvent.line ++ [InEvent.line v])).exit = 0 := by
  have hmem := header_no_special q (List.get?_mem hq)
  have hbank := bank_invariant q (List.get?_mem hq)
  obtain ⟨hL, hC⟩ := hbank
  have hlt : q.correct < q.options.length := by omega
  have hskip1 := collectAnswer_skip lines (InEvent.interrupt :: rest) hlines
  have hskip2 := collectAnswer_skip lines [InEvent.line v] hlines
  have hval := collectAnswer_valid_cons v [] hv
  rw [hval] at hskip2
  simp only [List.get?_eq_getElem?] at hq
  have htr : (runQuiz questions pick
      (lines.map InEvent.line ++ InEvent.interrupt :: rest)).trace =
      banner ++ (presentQuestion q ++ (skipBlock lines ++
        [Out.prompt answerPrompt, Out.line cancelMsg])) := by
    simp [runQuiz, hq, hskip1, collectAnswer]
  refine ⟨?_, ?_, ?_, ?_, ?_⟩
  · simp [runQuiz, hq, hskip1, collectAnswer]
  · rw [htr]
    simp
  · rw [htr]
    intro hin
    rcases List.mem_append.1 hin with hin | hin
    · exact hmem.2.1 (List.mem_append.2 (Or.inl hin))
    rcases List.mem_append.1 hin with hin | hin
    · exact hmem.2.1 (List.mem_append.2 (Or.inr hin))
    rcases List.mem_append.1 hin with hin | hin
    · rcases skipBlock_mem lines _ hin with h | h
      · exact absurd h (by decide)
      · exact absurd h (by decide)
    · rcases List.mem_cons.1 hin with h | h
      · exact absurd h (by decide)
      · exact absurd (List.mem_singleton.1 h) (by decide)
  · rw [htr]
    intro hin
    rcases List.mem_append.1 hin with hin | hin
    · exact hmem.2.2 (List.mem_append.2 (Or.inl hin))
    rcases List.mem_append.1 hin with hin | hin
    · exact hmem.2.2 (List.mem_append.2 (Or.inr hin))
    rcases List.mem_append.1 hin with hin | hin
    · rcases skipBlock_mem lines _ hin with h | h
      · exact absurd h (by decide)
      · exact absurd h (by decide)
    · rcases List.mem_cons.1 hin with h | h
      · exact absurd h (by decide)
      · exact absurd (List.mem_singleton.1 h) (by decide)
  · have hcomp := evaluate_completes q hlt (if pyStrip v = "1" then 0 else 1)
    simp [runQuiz, hq, hskip2, hcomp]

theorem C4_witness :
    (runQuiz questions 0
      (([] : List String).map InEvent.line ++ InEvent.interrupt :: [])).exit = 0 ∧
    Out.line cancelMsg ∈ (runQuiz questions 0
      (([] : List String).map InEvent.line ++ InEvent.interrupt :: [])).trace ∧
    Out.line correctMsg ∉ (runQuiz questions 0
      (([] : List String).map InEvent.line ++ InEvent.interrupt :: [])).trace ∧
    Out.line incorrectMsg ∉ (runQuiz questions 0
      (([] : List String).map InEvent.line ++ InEvent.interrupt :: [])).trace ∧
    (runQuiz questions 0
      (([] : List String).map InEvent.line ++ [InEvent.line "1"])).exit = 0 :=
  C4_interrupt_graceful 0 (questions.getD 0 dfltQ) [] [] "1"
    (by decide) (by decide) (by decide)

/-- C5: every record of the static bank has exactly two options and a
correct index equal to 0 or 1. -/
theorem C5_bank_wellformed (q : Question) (hq : q ∈ questions) :
    q.options.length = 2 ∧ (q.correct = 0 ∨ q.correct = 1) := by
  have h := bank_invariant q hq
  exact ⟨h.1, by omega⟩

theorem C5_witness :
    (questions.getD 0 dfltQ).options.length = 2 ∧
    ((questions.getD 0 dfltQ).correct = 0 ∨ (questions.getD 0 dfltQ).correct = 1) :=
  C5_bank_wellformed _ (by decide)

/-- C6: the bank is non-empty; selection at an in-range draw always
returns a member of the bank; every member is returned under some draw;
and over a single-question bank every in-range draw returns that
question. -/
theorem C6_selectQuestion_spec :
    0 < questions.length ∧
    (∀ (qs : List Question) (pick : Nat), pick < qs.length →
      ∃ q, selectQuestion qs pick = some q ∧ q ∈ qs) ∧
    (∀ (qs : List Question) (q : Question), q ∈ qs →
      ∃ pick, pick < qs.length ∧ selectQuestion qs pick = some q) ∧
    (∀ (q : Question) (pick : Nat), pick < 1 → selectQuestion [q] pick = some q) := by
  refine ⟨by decide, ?_, ?_, ?_⟩
  · intro qs pick h
    exact ⟨qs.get ⟨pick, h⟩, List.get?_eq_get h, List.get_mem _ _ _⟩
  · intro qs q hq
    obtain ⟨⟨n, hn⟩, hget⟩ := List.mem_iff_get.1 hq
    refine ⟨n, hn, ?_⟩
    rw [selectQuestion, List.get?_eq_get hn, hget]
  · intro q pick h
    have h0 : pick = 0 := by omega
    subst h0
    rfl

theorem C6_witness :
    (∃ q, selectQuestion questions 0 = some q ∧ q ∈ questions) ∧
    (∃ pick, pick < questions.length ∧
      selectQuestion questions pick = some (questions.getD 0 dfltQ)) ∧
    selectQuestion [dfltQ] 0 = some dfltQ :=
  ⟨C6_selectQuestion_spec.2.1 questions 0 (by decide),
   C6_selectQuestion_spec.2.2.1 questions _ (by decide),
   C6_selectQuestion_spec.2.2.2 dfltQ 0 (by decide)⟩

/-- C7: on every run over a selected bank question, the console output
begins with the fixed banner, the question prompt, the two options as
numbered lines, a blank line, and the input prompt. -/
theorem C7_console_header (pick : Nat) (q : Question) (o1 o2 : String)
    (events : List InEvent)
    (hq : questions.get? pick = some q) (hopts : q.options = [o1, o2]) :
    (∃ tail, (runQuiz questions pick events).trace =
      Out.line "🧠 NFT Patent Marketplace Quiz" ::
      Out.line (String.mk (List.replicate 50 '=')) ::
      Out.line "Test your knowledge of where features and functionality are located!" ::
      Out.line "Choose option 1 or 2 for each question.\n" ::
      Out.line ("Question: " ++ q.question ++ "\n") ::
      Out.line ("1. " ++ o1) ::
      Out.line ("2. " ++ o2) ::
      Out.line "" ::
      Out.prompt answerPrompt :: tail) ∧
    (∃ restS, render (runQuiz questions pick events).trace =
      render (banner ++ (presentQuestion q ++ [Out.prompt answerPrompt])) ++ restS) := by
  obtain ⟨t, ht⟩ := runQuiz_trace_shape questions pick q events hq
  have h1 : (toString (1 : Nat)) ++ ". " = "1. " := by decide
  have h2 : (toString (2 : Nat)) ++ ". " = "2. " := by decide
  constructor
  · refine ⟨t, ?_⟩
    rw [ht]
    simp [banner, presentQuestion, hopts, optionLines, h1, h2]
  · refine ⟨render t, ?_⟩
    rw [ht, render_append, render_append, render_append, render_append]
    simp [render, String.append_assoc]

theorem C7_witness :
    (∃ tail, (runQuiz questions 0 []).trace =
      Out.line "🧠 NFT Patent Marketplace Quiz" ::
      Out.line (String.mk (List.replicate 50 '=')) ::
      Out.line "Test your knowledge of where features and functionality are located!" ::
      Out.line "Choose option 1 or 2 for each question.\n" ::
      Out.line ("Question: " ++ (questions.getD 0 dfltQ).question ++ "\n") ::
      Out.line ("1. " ++ "src/services/patentApi.ts") ::
      Out.line ("2. " ++ "src/pages/PatentSearchPage.tsx") ::
      Out.line "" ::
      Out.prompt answerPrompt :: tail) ∧
    (∃ restS, render (runQuiz questions 0 []).trace =
      render (banner ++ (presentQuestion (questions.getD 0 dfltQ) ++
        [Out.prompt answerPrompt])) ++ restS) :=
  C7_console_header 0 (questions.getD 0 dfltQ)
    "src/services/patentApi.ts" "src/pages/PatentSearchPage.tsx" []
    (by decide) (by decide)

/-- C8: a full session leaves the question bank unchanged on every path,
cancellation included: run_quiz contains no assignment to the bank and no
mutation of a record. -/
theorem C8_bank_unchanged (qs : List Question) (pick : Nat) (events : List InEvent) :
    (runQuiz qs pick events).bank = qs := by
  unfold runQuiz
  split
  · rfl
  · dsimp only
    split
    · split <;> rfl
    · rfl
    · rfl
    · rfl

/-- C9: the int conversion is reached only on lines whose stripped form is
"1" or "2", so its ValueError arm is unreachable, the resulting choice is
always 0 or 1, and for every bank entry the correct index is in range for
option indexing. -/
theorem C9_int_conversion_safe :
    (∀ events, (collectAnswer events).2 ≠ LoopResult.valueErrorCancel) ∧
    (∀ events choice, (collectAnswer events).2 = LoopResult.ok choice →
      choice = 0 ∨ choice = 1) ∧
    (∀ q ∈ questions, q.correct < q.options.length) := by
  have key : ∀ events : List InEvent,
      (collectAnswer events).2 ≠ LoopResult.valueErrorCancel ∧
      (∀ choice, (collectAnswer events).2 = LoopResult.ok choice →
        choice = 0 ∨ choice = 1) := by
    intro events
    induction events with
    | nil =>
        constructor
        · intro h
          cases h
        · intro c h
          cases h
    | cons e rest ih =>
        cases e with
        | interrupt =>
            constructor
            · intro h
              cases h
            · intro c h
              cases h
        | line t =>
            by_cases hv : pyStrip t = "1" ∨ pyStrip t = "2"
            · rw [collectAnswer_valid_cons t rest hv]
              constructor
              · intro h
                cases h
              · intro c h
                simp only [] at h
                cases h
                split <;> simp
            · rw [collectAnswer_invalid_cons t rest hv]
              exact ih
  exact ⟨fun e => (key e).1, fun e c => (key e).2 c, by decide⟩

theorem C9_witness :
    (collectAnswer [InEvent.line "x"]).2 ≠ LoopResult.valueErrorCancel ∧
    ((1 : Int) = 0 ∨ (1 : Int) = 1) ∧
    (questions.getD 0 dfltQ).correct < (questions.getD 0 dfltQ).options.length :=
  ⟨C9_int_conversion_safe.1 [InEvent.line "x"],
   C9_int_conversion_safe.2.1 [InEvent.line "2"] 1 (by decide),
   C9_int_conversion_safe.2.2 _ (by decide)⟩

/-- C10: for a fixed random draw and a fixed input stream, two runs have
identical console output and identical exit status: observable behaviour
is a deterministic function of the draw and the stream. -/
theorem C10_deterministic (pick : Nat) (events : List InEvent) (r1 r2 : RunResult)
    (h1 : r1 = runQuiz questions pick events)
    (h2 : r2 = runQuiz questions pick events) :
    r1.trace = r2.trace ∧ r1.exit = r2.exit := by
  subst h1
  subst h2
  exact ⟨rfl, rfl⟩

theorem C10_witness :
    (runQuiz questions 0 [InEvent.line "1"]).trace =
      (runQuiz questions 0 [InEvent.line "1"]).trace ∧
    (runQuiz questions 0 [InEvent.line "1"]).exit =
      (runQuiz questions 0 [InEvent.line "1"]).exit :=
  C10_deterministic 0 [InEvent.line "1"] _ _ rfl rfl

end NFTQuiz
